import Mathlib

/-!
Shallow embedding of the msixvcdl-expressjs core: the token lifecycle
manager (auth/tokenService), the OAuth callback's bundle construction
(routes/msixvc `/callback`), the protected-route token phase and cache
section (routes/msixvc `/:identifier`), and the SQLite-backed cache store
(services/cacheService). JavaScript objects become Lean structures with
optional fields; JS truthiness of those fields is made explicit; remote
calls (identity gateway, package service, SQLite driver callbacks) become
outcome parameters; timestamps (`Date.now()`, parsed date strings) are
integers in milliseconds.
-/

namespace Msixvcdl

/-- JS truthiness of an optional string field: `undefined`, `null` and the
empty string are falsy, every other string is truthy. -/
def truthyStr : Option String → Bool
  | none => false
  | some s => s ≠ ""

/-- JS truthiness of an optional numeric field: `undefined`, `null` and `0`
are falsy. -/
def truthyInt : Option Int → Bool
  | none => false
  | some n => n ≠ 0

/-- XSTS security token as consumed by `needsXboxTokenRefresh` and the
package fetch. `NotAfter` is the parsed expiry instant in ms
(`new Date(xstsToken.NotAfter).getTime()`); `none` stands for an absent
field. -/
structure XstsToken where
  NotAfter : Option Int := none
  Token : String := ""
deriving Repr, DecidableEq

/-- The persisted token bundle (`token.json`). Field names follow the JSON
object the token service reads and writes; `none` means the key is absent
(or `null`). `userToken` and `xsts` are the derived Xbox Live tokens. -/
structure Tokens where
  access_token : Option String := none
  refresh_token : Option String := none
  expires_in : Option Int := none
  expires_at : Option Int := none
  token_type : Option String := none
  scope : Option String := none
  user_id : Option String := none
  foci : Option String := none
  userToken : Option String := none
  xsts : Option XstsToken := none
deriving Repr, DecidableEq

/-- Model of `saveTokens` (tokenService): before writing, if the bundle carries a
truthy relative `expires_in` (seconds), set
`expires_at = Date.now() + expires_in * 1000`. Returns the object as
persisted. -/
def saveTokens (now : Int) (data : Tokens) : Tokens :=
  if truthyInt data.expires_in then
    { data with expires_at := some (now + data.expires_in.getD 0 * 1000) }
  else
    data

/-- Model of `needsTokenRefresh` (tokenService): true when the access token is
falsy, or when `expires_at` is truthy and `Date.now() >= expires_at`. -/
def needsTokenRefresh (now : Int) (tokens : Tokens) : Bool :=
  if truthyStr tokens.access_token = false then true
  else if truthyInt tokens.expires_at && decide (now ≥ tokens.expires_at.getD 0) then true
  else false

/-- The five-minute buffer (in ms) subtracted from `NotAfter`. -/
def bufferTime : Int := 5 * 60 * 1000

/-- Model of `needsXboxTokenRefresh` (tokenService): true when the token or its
`NotAfter` field is falsy, otherwise `Date.now() >= NotAfter - buffer`. -/
def needsXboxTokenRefresh (now : Int) (xstsToken : Option XstsToken) : Bool :=
  match xstsToken with
  | none => true
  | some x =>
    match x.NotAfter with
    | none => true
    | some notAfter => decide (now ≥ notAfter - bufferTime)

/-- Right-biased field merge: the semantics of one field under a JS object
spread `{...old, ...new}` — the new object's field wins when present. -/
def overlay (newField oldField : Option α) : Option α :=
  match newField with
  | some v => some v
  | none => oldField

/-- The spread `{...tokens, ...newTokenData}` over the bundle's fields. -/
def mergeSpread (tokens newTokenData : Tokens) : Tokens :=
  { access_token := overlay newTokenData.access_token tokens.access_token
    refresh_token := overlay newTokenData.refresh_token tokens.refresh_token
    expires_in := overlay newTokenData.expires_in tokens.expires_in
    expires_at := overlay newTokenData.expires_at tokens.expires_at
    token_type := overlay newTokenData.token_type tokens.token_type
    scope := overlay newTokenData.scope tokens.scope
    user_id := overlay newTokenData.user_id tokens.user_id
    foci := overlay newTokenData.foci tokens.foci
    userToken := overlay newTokenData.userToken tokens.userToken
    xsts := overlay newTokenData.xsts tokens.xsts }

/-- The merged object built in `refreshTokensIfNeeded`:
`{...tokens, ...newTokenData, userToken: null, xsts: null}`. -/
def refreshMerge (tokens newTokenData : Tokens) : Tokens :=
  { mergeSpread tokens newTokenData with userToken := none, xsts := none }

/-- Outcome of a remote call: the resolved value, or a thrown error
(rejected promise / non-ok response). -/
inductive CallOutcome (α : Type) where
  | ok (v : α)
  | err
deriving Repr, DecidableEq

/-- Observable result of `refreshTokensIfNeeded`: the value returned to the
caller (`null` becomes `none`; the `refreshed: true` marker is the flag),
the credential store's content afterwards, and whether the refresh network
call was made. -/
structure RefreshResult where
  returned : Option Tokens
  refreshedFlag : Bool
  stored : Option Tokens
  networkCalled : Bool
deriving Repr, DecidableEq

/-- Model of `refreshTokensIfNeeded` (tokenService). `stored` is what `loadTokens`
finds; `refreshCall` is the outcome `authService.refreshAccessToken` would
produce if invoked. -/
def refreshTokensIfNeeded (now : Int) (stored : Option Tokens)
    (refreshCall : CallOutcome Tokens) : RefreshResult :=
  match stored with
  | none => ⟨none, false, none, false⟩
  | some tokens =>
    if needsTokenRefresh now tokens then
      if truthyStr tokens.refresh_token = false then
        ⟨none, false, some tokens, false⟩
      else
        match refreshCall with
        | .ok newTokenData =>
          let updatedTokens := refreshMerge tokens newTokenData
          let persisted := saveTokens now updatedTokens
          ⟨some persisted, true, some persisted, true⟩
        | .err => ⟨none, false, some tokens, true⟩
    else
      ⟨some tokens, false, some tokens, false⟩

/-- The `fullState` object the `/callback` route persists: access token and
the two derived tokens, plus the code-exchange fields only when a
`tokenData` object exists (implicit flow passes `none`). -/
def callbackFullState (access_token userTok : String) (x : XstsToken)
    (tokenData : Option Tokens) : Tokens :=
  match tokenData with
  | none =>
    { access_token := some access_token, userToken := some userTok, xsts := some x }
  | some td =>
    { access_token := some access_token, userToken := some userTok, xsts := some x,
      refresh_token := td.refresh_token, expires_in := td.expires_in,
      token_type := td.token_type, scope := td.scope,
      user_id := td.user_id, foci := td.foci }

/-- JavaScript's `String.prototype.toUpperCase()` over the identifier
alphabet (ASCII), as a character-wise map. -/
def jsToUpperCase (s : String) : String := String.mk (s.data.map Char.toUpper)

/-- A row of the `package_cache` table. `last_modified_date` is stored as
text and parsed with `new Date(...)` at compare time; it is modelled as the
parsed instant in ms. `cached_at` (DATETIME DEFAULT CURRENT_TIMESTAMP) is
modelled by the row's position: the table list is kept in insertion order,
so `ORDER BY cached_at DESC LIMIT 1` selects the last inserted matching
row. -/
structure Row where
  product_id : String
  content_id : String
  last_modified_date : Int
  files_data : String
deriving Repr, DecidableEq

/-- What `getCachedPackageData` resolves with on a hit. -/
structure CacheHit where
  contentId : String
  files : String
deriving Repr, DecidableEq

/-- Model of `CacheService.getCachedPackageData`: uppercase the product id, take the
most recent row for that key, and resolve `null` when the candidate
last-modified date is strictly newer than the stored one. -/
def getCachedPackageData (db : List Row) (productId : String)
    (lastModifiedDate : Int) : Option CacheHit :=
  match (db.filter (fun r => r.product_id == jsToUpperCase productId)).getLast? with
  | none => none
  | some row =>
    if lastModifiedDate > row.last_modified_date then none
    else some ⟨row.content_id, row.files_data⟩

/-- Model of `CacheService.cachePackageData`: with `CONFIG.cacheHistory` set, insert
a new row; otherwise first delete every row for the (uppercased) key, then
insert. -/
def cachePackageData (cacheHistory : Bool) (db : List Row)
    (productId contentId : String) (lastModifiedDate : Int)
    (files : String) : List Row :=
  let key := jsToUpperCase productId
  let base := if cacheHistory then db else db.filter (fun r => !(r.product_id == key))
  base ++ [⟨key, contentId, lastModifiedDate, files⟩]

/-- Result of the `authenticateXboxLive(accessToken)` chain. -/
structure XblAuthResult where
  userToken : String
  xsts : XstsToken
deriving Repr, DecidableEq

/-- Outcome of the token phase of `router.get("/:identifier")`. -/
inductive AuthPhase where
  | notAuthed
  | xblAuthFailed
  | proceed (tokens : Tokens) (xsts : XstsToken)
deriving Repr, DecidableEq

/-- Token-phase result: the decision, the credential store afterwards, and
which remote calls were attempted. -/
structure RoutePhaseResult where
  outcome : AuthPhase
  stored : Option Tokens
  refreshNetworkCalled : Bool
  xblNetworkCalled : Bool
deriving Repr, DecidableEq

/-- The Xbox Live re-auth branch of the route: on success the two derived
tokens are stored into the bundle and it is persisted with `saveTokens`;
on failure the handler returns 401 and the store is not written. -/
def routeXblReauth (now : Int) (tokens : Tokens) (storedBefore : Option Tokens)
    (refreshCalled : Bool) (xblCall : CallOutcome XblAuthResult) : RoutePhaseResult :=
  match xblCall with
  | .ok authResult =>
    let tokens2 := { tokens with userToken := some authResult.userToken,
                                 xsts := some authResult.xsts }
    let persisted := saveTokens now tokens2
    ⟨.proceed persisted authResult.xsts, some persisted, refreshCalled, true⟩
  | .err => ⟨.xblAuthFailed, storedBefore, refreshCalled, true⟩

/-- The token phase of `router.get("/:identifier")` (lines before the
cache/fetch section): refresh tokens if needed, 401 when that yields null,
then re-authenticate with Xbox Live when the xsts token is falsy or
`needsXboxTokenRefresh` says so. -/
def routeTokenPhase (now : Int) (store : Option Tokens)
    (refreshCall : CallOutcome Tokens)
    (xblCall : CallOutcome XblAuthResult) : RoutePhaseResult :=
  let r := refreshTokensIfNeeded now store refreshCall
  match r.returned with
  | none => ⟨.notAuthed, r.stored, r.networkCalled, false⟩
  | some tokens =>
    match tokens.xsts with
    | none => routeXblReauth now tokens r.stored r.networkCalled xblCall
    | some x =>
      if needsXboxTokenRefresh now (some x) then
        routeXblReauth now tokens r.stored r.networkCalled xblCall
      else
        ⟨.proceed tokens x, r.stored, r.networkCalled, false⟩

/-- HTTP outcome of the cache/fetch section for a product-id request. -/
inductive PkgResponse where
  | okFiles (files : String)
  | notFound
  | serverError
deriving Repr, DecidableEq

/-- The cache section of `router.get("/:identifier")` on the product-id
path: try the cache lookup; on a hit answer from it; on a miss fetch from
the package service (404 on null), then try to store, absorbing store
errors; when the lookup (or anything in that inner try) throws, fall back
to a direct fetch. A fetch that throws escapes to the outer handler catch,
which answers 500. -/
def routeCacheSection (lookupCall : CallOutcome (Option CacheHit))
    (fetchCall : CallOutcome (Option String))
    (storeCall : CallOutcome Unit) : PkgResponse :=
  match lookupCall with
  | .ok (some cached) => .okFiles cached.files
  | .ok none =>
    match fetchCall with
    | .ok (some files) =>
      match storeCall with
      | .ok _ => .okFiles files
      | .err => .okFiles files
    | .ok none => .notFound
    | .err => .serverError
  | .err =>
    match fetchCall with
    | .ok (some files) => .okFiles files
    | .ok none => .notFound
    | .err => .serverError

/-- Example bundle for the expiry-derivation scenario: an access token and
a relative expiry of 60 seconds. -/
def exRelData : Tokens := { access_token := some "a", expires_in := some 60 }

/-- Example bundle whose access token is expired, with a refresh token and
both derived tokens still present. -/
def exExpired : Tokens :=
  { access_token := some "old", refresh_token := some "r",
    expires_in := some 3600, expires_at := some 500,
    userToken := some "u", xsts := some { NotAfter := some 999 } }

/-- Example refresh response carrying only a new access token. -/
def exResp : Tokens := { access_token := some "b" }

/-- Example bundle whose access token is still valid while its security
token is past the re-auth buffer. -/
def exValid : Tokens :=
  { access_token := some "a", expires_at := some 99999,
    xsts := some { NotAfter := some 0 } }

-- Helper lemmas -------------------------------------------------------------

theorem saveTokens_preserves (T : Int) (d : Tokens) :
    (saveTokens T d).access_token = d.access_token ∧
    (saveTokens T d).refresh_token = d.refresh_token ∧
    (saveTokens T d).expires_in = d.expires_in ∧
    (saveTokens T d).token_type = d.token_type ∧
    (saveTokens T d).scope = d.scope ∧
    (saveTokens T d).user_id = d.user_id ∧
    (saveTokens T d).foci = d.foci ∧
    (saveTokens T d).userToken = d.userToken ∧
    (saveTokens T d).xsts = d.xsts := by
  unfold saveTokens
  split <;> simp

theorem refreshTokensIfNeeded_ok (now : Int) (tokens resp : Tokens)
    (hneed : needsTokenRefresh now tokens = true)
    (hrt : truthyStr tokens.refresh_token = true) :
    refreshTokensIfNeeded now (some tokens) (CallOutcome.ok resp) =
      ⟨some (saveTokens now (refreshMerge tokens resp)), true,
       some (saveTokens now (refreshMerge tokens resp)), true⟩ := by
  simp [refreshTokensIfNeeded, hneed, hrt]

-- C1 ------------------------------------------------------------------------

/-- C1 counterexample: saving `exRelData` (relative expiry 60 s) at time
100 does not replace the relative value: the persisted bundle still
carries `expires_in = 60`, and a later save of that same bundle at time
999 re-derives `expires_at` from the retained relative value, superseding
the original `100 + 60 * 1000` with `999 + 60 * 1000`. -/
theorem saveTokens_retains_relative_counterexample :
    (saveTokens 100 exRelData).expires_in = some 60 ∧
    (saveTokens 100 exRelData).expires_at = some 60100 ∧
    (saveTokens 999 (saveTokens 100 exRelData)).expires_at = some 60999 ∧
    (saveTokens 999 (saveTokens 100 exRelData)).expires_at ≠ some 60100 := by decide

/-- C1 (amended): saving a bundle that carries a relative expiry of `N`
seconds at time `T` stores the absolute `expires_at = T + N` seconds
alongside the retained relative value — a later save re-derives
`expires_at` from that retained `expires_in`; afterwards, with the access
token present, `needsTokenRefresh` is false exactly at times strictly
before `T + N` seconds and true at or after it (so false at `T + (N-1)` s
and true at `T + (N+1)` s), and `needsTokenRefresh` itself never reads the
relative `expires_in` value. -/
theorem saveTokens_absolute_expiry (T t N : Int) (data : Tokens)
    (hin : data.expires_in = some N) (hN : 0 < N) (hT : 0 ≤ T)
    (ha : truthyStr data.access_token = true) :
    (saveTokens T data).expires_at = some (T + N * 1000) ∧
    (saveTokens T data).expires_in = some N ∧
    (∀ T2 : Int, (saveTokens T2 (saveTokens T data)).expires_at = some (T2 + N * 1000)) ∧
    (needsTokenRefresh t (saveTokens T data) = false ↔ t < T + N * 1000) ∧
    (∀ (tk : Tokens) (x : Option Int),
      needsTokenRefresh t { tk with expires_in := x } = needsTokenRefresh t tk) := by
  have hNz : N ≠ 0 := hN.ne'
  have hsave : saveTokens T data = { data with expires_at := some (T + N * 1000) } := by
    simp [saveTokens, hin, truthyInt, hNz]
  refine ⟨by rw [hsave], by rw [hsave]; exact hin, ?_, ?_, ?_⟩
  · intro T2
    rw [hsave]
    simp [saveTokens, hin, truthyInt, hNz]
  · rw [hsave]
    have hpos : T + N * 1000 ≠ 0 := by omega
    simp [needsTokenRefresh, truthyInt, ha, hpos]
  · intro tk x
    simp [needsTokenRefresh]

theorem saveTokens_absolute_expiry_witness :
    (saveTokens 100 exRelData).expires_at = some (100 + 60 * 1000) ∧
    (saveTokens 100 exRelData).expires_in = some 60 ∧
    (∀ T2 : Int, (saveTokens T2 (saveTokens 100 exRelData)).expires_at =
      some (T2 + 60 * 1000)) ∧
    (needsTokenRefresh 59000 (saveTokens 100 exRelData) = false ↔
      (59000 : Int) < 100 + 60 * 1000) ∧
    (∀ (tk : Tokens) (x : Option Int),
      needsTokenRefresh 59000 { tk with expires_in := x } = needsTokenRefresh 59000 tk) :=
  saveTokens_absolute_expiry 100 59000 60 exRelData rfl (by decide) (by decide) (by decide)

-- C2 ------------------------------------------------------------------------

/-- C2: after every successful refresh, the persisted bundle's derived
tokens `userToken` and `xsts` are absent, whatever they were before. -/
theorem refresh_clears_derived_tokens (now : Int) (tokens resp : Tokens)
    (hneed : needsTokenRefresh now tokens = true)
    (hrt : truthyStr tokens.refresh_token = true) :
    ∃ persisted : Tokens,
      (refreshTokensIfNeeded now (some tokens) (CallOutcome.ok resp)).stored = some persisted ∧
      persisted.userToken = none ∧ persisted.xsts = none := by
  refine ⟨saveTokens now (refreshMerge tokens resp), ?_, ?_, ?_⟩
  · rw [refreshTokensIfNeeded_ok now tokens resp hneed hrt]
  · rw [(saveTokens_preserves now (refreshMerge tokens resp)).2.2.2.2.2.2.2.1]
    rfl
  · rw [(saveTokens_preserves now (refreshMerge tokens resp)).2.2.2.2.2.2.2.2]
    rfl

theorem refresh_clears_derived_tokens_witness :
    ∃ persisted : Tokens,
      (refreshTokensIfNeeded 1000 (some exExpired) (CallOutcome.ok exResp)).stored =
        some persisted ∧
      persisted.userToken = none ∧ persisted.xsts = none :=
  refresh_clears_derived_tokens 1000 exExpired exResp (by decide) (by decide)

-- C3 ------------------------------------------------------------------------

/-- C3 counterexample: refreshing `exExpired` with a response that carries
only a new access token (no `expires_at`, not even `expires_in`) still
changes the stored bundle's `expires_at` from 500 to `1000 + 3600 * 1000`:
`saveTokens` recomputes it from the retained relative `expires_in`, so not
every field absent from the refresh response keeps its prior value. -/
theorem refresh_frame_counterexample :
    exResp.expires_at = none ∧ exResp.expires_in = none ∧
    exExpired.expires_at = some 500 ∧
    (refreshTokensIfNeeded 1000 (some exExpired) (CallOutcome.ok exResp)).stored.map
      Tokens.expires_at = some (some 3601000) := by decide

/-- C3 (amended): on a successful refresh the spread merge keeps every
bundle field absent from the response, except that the derived tokens are
unconditionally cleared and `expires_at` is recomputed by `saveTokens`
whenever the merged bundle still carries a truthy `expires_in`; in
particular the old refresh token is retained when the response has no
`refresh_token` field. -/
theorem refresh_preserves_absent_fields (now : Int) (tokens resp : Tokens)
    (hneed : needsTokenRefresh now tokens = true)
    (hrt : truthyStr tokens.refresh_token = true)
    (hnoRt : resp.refresh_token = none) :
    ∃ persisted : Tokens,
      (refreshTokensIfNeeded now (some tokens) (CallOutcome.ok resp)).stored = some persisted ∧
      persisted.refresh_token = tokens.refresh_token ∧
      persisted.userToken = none ∧ persisted.xsts = none ∧
      (resp.access_token = none → persisted.access_token = tokens.access_token) ∧
      (resp.expires_in = none → persisted.expires_in = tokens.expires_in) ∧
      (resp.token_type = none → persisted.token_type = tokens.token_type) ∧
      (resp.scope = none → persisted.scope = tokens.scope) ∧
      (resp.user_id = none → persisted.user_id = tokens.user_id) ∧
      (resp.foci = none → persisted.foci = tokens.foci) ∧
      (truthyInt (overlay resp.expires_in tokens.expires_in) = false →
        persisted.expires_at = overlay resp.expires_at tokens.expires_at) := by
  refine ⟨saveTokens now (refreshMerge tokens resp), ?_, ?_, ?_, ?_, ?_, ?_, ?_, ?_, ?_, ?_, ?_⟩
  · rw [refreshTokensIfNeeded_ok now tokens resp hneed hrt]
  · rw [(saveTokens_preserves now (refreshMerge tokens resp)).2.1]
    simp [refreshMerge, mergeSpread, hnoRt, overlay]
  · rw [(saveTokens_preserves now (refreshMerge tokens resp)).2.2.2.2.2.2.2.1]
    rfl
  · rw [(saveTokens_preserves now (refreshMerge tokens resp)).2.2.2.2.2.2.2.2]
    rfl
  · intro h
    rw [(saveTokens_preserves now (refreshMerge tokens resp)).1]
    simp [refreshMerge, mergeSpread, h, overlay]
  · intro h
    rw [(saveTokens_preserves now (refreshMerge tokens resp)).2.2.1]
    simp [refreshMerge, mergeSpread, h, overlay]
  · intro h
    rw [(saveTokens_preserves now (refreshMerge tokens resp)).2.2.2.1]
    simp [refreshMerge, mergeSpread, h, overlay]
  · intro h
    rw [(saveTokens_preserves now (refreshMerge tokens resp)).2.2.2.2.1]
    simp [refreshMerge, mergeSpread, h, overlay]
  · intro h
    rw [(saveTokens_preserves now (refreshMerge tokens resp)).2.2.2.2.2.1]
    simp [refreshMerge, mergeSpread, h, overlay]
  · intro h
    rw [(saveTokens_preserves now (refreshMerge tokens resp)).2.2.2.2.2.2.1]
    simp [refreshMerge, mergeSpread, h, overlay]
  · intro h
    have hmerge : (refreshMerge tokens resp).expires_in =
        overlay resp.expires_in tokens.expires_in := rfl
    unfold saveTokens
    rw [hmerge, h]
    simp [refreshMerge, mergeSpread]

theorem refresh_preserves_absent_fields_witness :
    ∃ persisted : Tokens,
      (refreshTokensIfNeeded 1000 (some exExpired) (CallOutcome.ok exResp)).stored =
        some persisted ∧
      persisted.refresh_token = exExpired.refresh_token ∧
      persisted.userToken = none ∧ persisted.xsts = none ∧
      (exResp.access_token = none → persisted.access_token = exExpired.access_token) ∧
      (exResp.expires_in = none → persisted.expires_in = exExpired.expires_in) ∧
      (exResp.token_type = none → persisted.token_type = exExpired.token_type) ∧
      (exResp.scope = none → persisted.scope = exExpired.scope) ∧
      (exResp.user_id = none → persisted.user_id = exExpired.user_id) ∧
      (exResp.foci = none → persisted.foci = exExpired.foci) ∧
      (truthyInt (overlay exResp.expires_in exExpired.expires_in) = false →
        persisted.expires_at = overlay exResp.expires_at exExpired.expires_at) :=
  refresh_preserves_absent_fields 1000 exExpired exResp (by decide) (by decide) rfl

-- C4 ------------------------------------------------------------------------

/-- C4: a security token with `NotAfter = T` needs re-auth exactly at times
`>= T - 5min` and is still valid at `T - 5min - 1s`; an absent token, or
one without a `NotAfter` field, always needs re-auth. -/
theorem xbox_token_buffer (now T : Int) (x : XstsToken) (hna : x.NotAfter = some T) :
    (needsXboxTokenRefresh now (some x) = true ↔ T - bufferTime ≤ now) ∧
    needsXboxTokenRefresh (T - bufferTime - 1000) (some x) = false ∧
    (∀ t : Int, needsXboxTokenRefresh t none = true) ∧
    (∀ (t : Int) (y : XstsToken), y.NotAfter = none →
      needsXboxTokenRefresh t (some y) = true) := by
  refine ⟨?_, ?_, fun t => rfl, ?_⟩
  · simp [needsXboxTokenRefresh, hna]
  · simp [needsXboxTokenRefresh, hna]
  · intro t y hy
    simp [needsXboxTokenRefresh, hy]

theorem xbox_token_buffer_witness :
    (needsXboxTokenRefresh 999700000 (some { NotAfter := some 1000000000 }) = true ↔
      (1000000000 : Int) - bufferTime ≤ 999700000) ∧
    needsXboxTokenRefresh ((1000000000 : Int) - bufferTime - 1000)
      (some { NotAfter := some 1000000000 }) = false ∧
    (∀ t : Int, needsXboxTokenRefresh t none = true) ∧
    (∀ (t : Int) (y : XstsToken), y.NotAfter = none →
      needsXboxTokenRefresh t (some y) = true) :=
  xbox_token_buffer 999700000 1000000000 { NotAfter := some 1000000000 } rfl

-- C10 -----------------------------------------------------------------------

/-- C10: a persisted bundle with an access token but no `expires_at` is
never considered expired: `needsTokenRefresh` is false at every time and
`refreshTokensIfNeeded` returns it unchanged without any network call;
and a bundle saved without a truthy relative expiry — as the
implicit-flow `/callback` path saves it — gets no `expires_at`. -/
theorem no_expiry_never_refreshes (now t : Int) (tokens : Tokens)
    (rc : CallOutcome Tokens)
    (ha : truthyStr tokens.access_token = true)
    (he : tokens.expires_at = none) :
    needsTokenRefresh t tokens = false ∧
    refreshTokensIfNeeded now (some tokens) rc =
      ⟨some tokens, false, some tokens, false⟩ ∧
    (∀ (T : Int) (d : Tokens), d.expires_in = none → saveTokens T d = d) ∧
    (∀ (T : Int) (a u : String) (x : XstsToken),
      (saveTokens T (callbackFullState a u x none)).expires_at = none) := by
  have hfalse : ∀ s : Int, needsTokenRefresh s tokens = false := by
    intro s
    simp [needsTokenRefresh, truthyInt, ha, he]
  refine ⟨hfalse t, ?_, ?_, ?_⟩
  · simp [refreshTokensIfNeeded, hfalse now]
  · intro T d hd
    simp [saveTokens, hd, truthyInt]
  · intro T a u x
    simp [saveTokens, callbackFullState, truthyInt]

theorem no_expiry_never_refreshes_witness :
    needsTokenRefresh 999999999999 exRelData = false ∧
    refreshTokensIfNeeded 999999999999 (some exRelData) CallOutcome.err =
      ⟨some exRelData, false, some exRelData, false⟩ ∧
    (∀ (T : Int) (d : Tokens), d.expires_in = none → saveTokens T d = d) ∧
    (∀ (T : Int) (a u : String) (x : XstsToken),
      (saveTokens T (callbackFullState a u x none)).expires_at = none) :=
  no_expiry_never_refreshes 999999999999 999999999999 exRelData CallOutcome.err
    (by decide) rfl

-- Cache helper lemmas -------------------------------------------------------

theorem lookup_after_store (cacheHistory : Bool) (db : List Row)
    (pidStore pidLookup contentId files : String) (D d : Int)
    (hkey : jsToUpperCase pidStore = jsToUpperCase pidLookup) :
    getCachedPackageData
        (cachePackageData cacheHistory db pidStore contentId D files) pidLookup d =
      if d > D then none else some ⟨contentId, files⟩ := by
  unfold getCachedPackageData cachePackageData
  rw [List.filter_append]
  have hrow : ((⟨jsToUpperCase pidStore, contentId, D, files⟩ : Row).product_id ==
      jsToUpperCase pidLookup) = true := by
    simp [hkey]
  simp [hrow, List.getLast?_concat]

-- C5 ------------------------------------------------------------------------

/-- C5: after storing an entry with last-modified date `D` under a product
id, a lookup under any casing of that id finds the most recently written
row and hits exactly when the candidate date is not strictly newer than
`D`: it hits at `D` and at `D - ε`, and misses at `D + ε`. -/
theorem cache_lookup_freshness (cacheHistory : Bool) (db : List Row)
    (pidStore pidLookup contentId files : String) (D eps : Int)
    (hkey : jsToUpperCase pidStore = jsToUpperCase pidLookup) (heps : 0 < eps) :
    getCachedPackageData
        (cachePackageData cacheHistory db pidStore contentId D files) pidLookup D =
      some ⟨contentId, files⟩ ∧
    getCachedPackageData
        (cachePackageData cacheHistory db pidStore contentId D files) pidLookup (D - eps) =
      some ⟨contentId, files⟩ ∧
    getCachedPackageData
        (cachePackageData cacheHistory db pidStore contentId D files) pidLookup (D + eps) =
      none := by
  rw [lookup_after_store cacheHistory db pidStore pidLookup contentId files D D hkey,
    lookup_after_store cacheHistory db pidStore pidLookup contentId files D (D - eps) hkey,
    lookup_after_store cacheHistory db pidStore pidLookup contentId files D (D + eps) hkey]
  refine ⟨by simp, ?_, ?_⟩
  · have h : ¬(D - eps > D) := by omega
    simp [h]
  · have h : D + eps > D := by omega
    simp [h]

theorem cache_lookup_freshness_witness :
    getCachedPackageData
        (cachePackageData false [] "abc123" "cid" 500 "F") "ABC123" 500 =
      some ⟨"cid", "F"⟩ ∧
    getCachedPackageData
        (cachePackageData false [] "abc123" "cid" 500 "F") "ABC123" (500 - 1) =
      some ⟨"cid", "F"⟩ ∧
    getCachedPackageData
        (cachePackageData false [] "abc123" "cid" 500 "F") "ABC123" (500 + 1) =
      none :=
  cache_lookup_freshness false [] "abc123" "ABC123" "cid" "F" 500 1 (by decide) (by decide)

-- C6 ------------------------------------------------------------------------

/-- C6: without history, any two successive stores for the same product id
leave exactly one row for that key (existing rows are deleted before the
insert); with history both inserted rows coexist on top of whatever was
there, and a lookup returns the most recently written row — the second
store's data — ordered by write time, not by last-modified date. -/
theorem cache_history_vs_replace (db : List Row) (pid c1 c2 f1 f2 : String)
    (d1 d2 : Int) :
    ((cachePackageData false (cachePackageData false db pid c1 d1 f1) pid c2 d2 f2).filter
        (fun r => r.product_id == jsToUpperCase pid)).length = 1 ∧
    ((cachePackageData true (cachePackageData true db pid c1 d1 f1) pid c2 d2 f2).filter
        (fun r => r.product_id == jsToUpperCase pid)).length =
      (db.filter (fun r => r.product_id == jsToUpperCase pid)).length + 2 ∧
    getCachedPackageData
        (cachePackageData true (cachePackageData true db pid c1 d1 f1) pid c2 d2 f2) pid d2 =
      some ⟨c2, f2⟩ ∧
    getCachedPackageData
        (cachePackageData false (cachePackageData false db pid c1 d1 f1) pid c2 d2 f2) pid d2 =
      some ⟨c2, f2⟩ := by
  refine ⟨?_, ?_, ?_, ?_⟩
  · unfold cachePackageData
    simp [List.filter_append, List.filter_filter]
  · unfold cachePackageData
    simp [List.filter_append]
  · rw [lookup_after_store true (cachePackageData true db pid c1 d1 f1) pid pid c2 f2 d2 d2 rfl]
    simp
  · rw [lookup_after_store false (cachePackageData false db pid c1 d1 f1) pid pid c2 f2 d2 d2 rfl]
    simp

-- C7 ------------------------------------------------------------------------

/-- C7: a failing identity-gateway call is terminal for the request but
leaves persisted state uncorrupted: when the refresh call fails the prior
stored bundle is untouched and the route answers unauthenticated; when the
Xbox Live re-auth fails the stored bundle (access token included) is
untouched and the route answers that Xbox Live authentication failed. -/
theorem gateway_failure_preserves_store (now : Int) (tokens : Tokens)
    (rc : CallOutcome Tokens) (xbl : CallOutcome XblAuthResult) :
    (needsTokenRefresh now tokens = true → truthyStr tokens.refresh_token = true →
      routeTokenPhase now (some tokens) CallOutcome.err xbl =
        ⟨.notAuthed, some tokens, true, false⟩) ∧
    (needsTokenRefresh now tokens = false → needsXboxTokenRefresh now tokens.xsts = true →
      routeTokenPhase now (some tokens) rc CallOutcome.err =
        ⟨.xblAuthFailed, some tokens, false, true⟩) := by
  constructor
  · intro hneed hrt
    simp [routeTokenPhase, refreshTokensIfNeeded, hneed, hrt]
  · intro hneed hx
    rcases hxs : tokens.xsts with _ | x
    · simp [routeTokenPhase, refreshTokensIfNeeded, hneed, hxs, routeXblReauth]
    · rw [hxs] at hx
      simp [routeTokenPhase, refreshTokensIfNeeded, hneed, hxs, hx, routeXblReauth]

theorem gateway_failure_preserves_store_witness :
    routeTokenPhase 1000 (some exExpired) CallOutcome.err CallOutcome.err =
      ⟨.notAuthed, some exExpired, true, false⟩ ∧
    routeTokenPhase 1000 (some exValid) (CallOutcome.ok exResp) CallOutcome.err =
      ⟨.xblAuthFailed, some exValid, false, true⟩ :=
  ⟨(gateway_failure_preserves_store 1000 exExpired
      (CallOutcome.ok exResp) CallOutcome.err).1 (by decide) (by decide),
   (gateway_failure_preserves_store 1000 exValid
      (CallOutcome.ok exResp) CallOutcome.err).2 (by decide) (by decide)⟩

-- C8 ------------------------------------------------------------------------

/-- C8: with no bundle ever persisted, token resolution fails as
unauthenticated and neither the refresh call nor the Xbox Live call is
attempted, whatever those calls would have returned. -/
theorem no_credentials_rejected (now : Int) (rc : CallOutcome Tokens)
    (xbl : CallOutcome XblAuthResult) :
    refreshTokensIfNeeded now none rc = ⟨none, false, none, false⟩ ∧
    routeTokenPhase now none rc xbl = ⟨.notAuthed, none, false, false⟩ :=
  ⟨rfl, rfl⟩

-- C9 ------------------------------------------------------------------------

/-- C9: a storage failure in the cache is absorbed: a throwing lookup still
yields the file list from a direct upstream fetch, a throwing store after a
miss still yields the fetched file list, and no cache failure alone ever
turns a successful fetch into a server error. -/
theorem cache_failure_transparent (files : String)
    (lk : CallOutcome (Option CacheHit)) (st : CallOutcome Unit) :
    routeCacheSection CallOutcome.err (CallOutcome.ok (some files)) st =
      PkgResponse.okFiles files ∧
    routeCacheSection (CallOutcome.ok none) (CallOutcome.ok (some files)) CallOutcome.err =
      PkgResponse.okFiles files ∧
    routeCacheSection lk (CallOutcome.ok (some files)) st ≠ PkgResponse.serverError := by
  refine ⟨rfl, rfl, ?_⟩
  rcases lk with o | _
  · rcases o with _ | c
    · rcases st with u | _ <;> simp [routeCacheSection]
    · simp [routeCacheSection]
  · simp [routeCacheSection]

end Msixvcdl
